import Mathlib

/-!
Verification development for the language-server selection and lifecycle
cache of the vscode-python extension.

The embedding below is a shallow, executable model of:
  * `LanguageServerCache` (activation/languageServer/cache.ts):
    `get`, `createServer`, `useJedi`, `isJediUsingDefaultConfiguration`,
    `sendTelemetryForChosenLanguageServer`, `onWorkspaceFoldersChanged`;
  * `DotNetServer` (activation/languageServer/dotNetServer.ts):
    `startup`, `startLanguageClient`, `serverReady`, `dispose`.

Modelling conventions.
  * The host runtime is single threaded and cooperative: all mutation of the
    cache map happens between suspension points, so "N concurrent calls" are
    N sequential invocations of the (synchronous) `get` body.  `get` inserts
    the pending promise into the map before returning, hence before any
    await inside `createServer` completes; the sequential model below is
    therefore adequate, and a promise is modelled as an identifier plus its
    eventual outcome (`PResult`).
  * External collaborators are modelled as environment data: the outcome of
    the configuration gate, the platform diagnostic, and, per allocated
    server instance, whether its `startup` rejects (and with which error).
  * `serviceContainer.get(IStartableLanguageServer, kind)` uses a transient
    registration (`serviceManager.add`, see serviceRegistry.ts), so every
    container lookup yields a fresh instance; instances are numbered by an
    allocation counter.
  * Telemetry and output-channel writes are recorded in the state so that
    claims about them can be stated.
-/

namespace LanguageServerCache

/-- Server instances handed out by the service container, numbered in
allocation order. -/
abbrev ServerId := Nat

/-- Promises held in the cache map, numbered in creation order. -/
abbrev PromiseId := Nat

/-- The eventual outcome of a cached construction promise: fulfilled with a
server handle, or rejected with an error (identified by a numeric code). -/
inductive PResult where
  | ok (server : ServerId)
  | err (code : Nat)
  deriving Repr, DecidableEq

/-- Result of `WorkspaceConfiguration.inspect('jediEnabled')`: the explicit
value of the setting at each of the three configuration scopes, `none`
meaning the user did not set the value at that scope. -/
structure InspectResult where
  globalValue : Option Bool
  workspaceValue : Option Bool
  workspaceFolderValue : Option Bool
  deriving Repr, DecidableEq

/-- External inputs consulted by the configuration gate (`useJedi`):
the inspect result (`none` models `inspect` itself returning `undefined`),
experiment membership, and the effective `jediEnabled` settings value
returned by the configuration service. -/
structure GateEnv where
  inspectJediEnabled : Option InspectResult
  inLSEnabledExperiment : Bool
  inLSControlExperiment : Bool
  settingsJediEnabled : Bool
  deriving Repr, DecidableEq

/-- The two variants of the one-shot "chosen language server" telemetry
event sent by `sendTelemetryForChosenLanguageServer`. -/
inductive SelectionTelemetry where
  | switchTo (jediEnabled : Bool)
  | lsStartup (jediEnabled : Bool)
  deriving Repr, DecidableEq

/-- State touched by the gate: the persisted `SWITCH_LS` boolean slot
(`none` models the initial `undefined`), the emitted selection telemetry
events, and a count of control-group telemetry signals. -/
structure GateState where
  switchLS : Option Bool
  selectionEvents : List SelectionTelemetry
  controlGroupTelemetry : Nat
  deriving Repr, DecidableEq

/-- Gate state at extension start: persisted slot undefined, nothing sent. -/
def initialGateState : GateState :=
  { switchLS := none, selectionEvents := [], controlGroupTelemetry := 0 }

/-- `LanguageServerCache.sendTelemetryForChosenLanguageServer`:
if the persisted slot does not hold a boolean, initialize it to the current
outcome; then, if the (re-read) slot differs from the outcome, update it and
send the `switchTo` variant, else send the `lsStartup` variant. -/
def sendTelemetryForChosenLanguageServer (jediEnabled : Bool) (st : GateState) : GateState :=
  let slot : Option Bool :=
    match st.switchLS with
    | none => some jediEnabled
    | some b => some b
  if slot ≠ some jediEnabled then
    { st with
      switchLS := some jediEnabled,
      selectionEvents := st.selectionEvents ++ [SelectionTelemetry.switchTo jediEnabled] }
  else
    { st with
      switchLS := slot,
      selectionEvents := st.selectionEvents ++ [SelectionTelemetry.lsStartup jediEnabled] }

/-- `LanguageServerCache.isJediUsingDefaultConfiguration`: true when the
inspect call succeeded and none of the three scopes holds an explicit
value; false (after logging an error) when inspect returned `undefined`. -/
def isJediUsingDefaultConfiguration (env : GateEnv) : Bool :=
  match env.inspectJediEnabled with
  | none => false
  | some s => s.globalValue.isNone && s.workspaceValue.isNone && s.workspaceFolderValue.isNone

/-- `LanguageServerCache.useJedi`: with a fully-default configuration,
membership in the `LSEnabled` experiment returns `false` (use the DotNet
language server) at once, skipping the selection telemetry; otherwise the
control-group telemetry may fire and the effective settings value decides,
with one selection telemetry event sent. -/
def useJedi (env : GateEnv) (st : GateState) : Bool × GateState :=
  if isJediUsingDefaultConfiguration env then
    if env.inLSEnabledExperiment then
      (false, st)
    else
      let st1 :=
        if env.inLSControlExperiment then
          { st with controlGroupTelemetry := st.controlGroupTelemetry + 1 }
        else st
      let enabled := env.settingsJediEnabled
      (enabled, sendTelemetryForChosenLanguageServer enabled st1)
  else
    let enabled := env.settingsJediEnabled
    (enabled, sendTelemetryForChosenLanguageServer enabled st)

/-- External inputs consulted during one `createServer` run: the decision of
the configuration gate (`useJedi`), whether the platform diagnostic reports
findings (nonempty list means the DotNet server is unsupported), and, per
allocated server instance, whether its `startup` call rejects and with
which error code (`none` means `startup` fulfills). -/
structure CacheEnv where
  jedi : Bool
  diagnosticNonEmpty : Bool
  startupFails : ServerId → Option Nat

/-- State owned by `LanguageServerCache`:
  * `cache`: the map from resource key to construction promise;
  * `jediServer`: the process-wide Jedi singleton slot;
  * `currentServer`: the most recent `{jedi, server}` selection;
  * `nextServer`: allocation counter of the transient service container;
  * `nextPromise` / `promises`: promise ids and their eventual outcomes;
  * `startupCalls`: the log of `server.startup` invocations, in order;
  * `createCalls`: how many `createServer` runs were started;
  * `platformTelemetry`: count of "platform not supported" telemetry events;
  * `startupLog`: the output-channel startup lines (`true` = Jedi line);
  * `disposedServers`: handles whose `dispose` was scheduled by eviction. -/
structure CState where
  cache : List (String × PromiseId)
  jediServer : Option ServerId
  currentServer : Option (Bool × ServerId)
  nextServer : ServerId
  nextPromise : PromiseId
  promises : List (PromiseId × PResult)
  startupCalls : List ServerId
  createCalls : Nat
  platformTelemetry : Nat
  startupLog : List Bool
  disposedServers : List ServerId
  deriving Repr, DecidableEq

/-- Cache state at extension start. -/
def initialCState : CState :=
  { cache := [], jediServer := none, currentServer := none, nextServer := 0,
    nextPromise := 0, promises := [], startupCalls := [], createCalls := 0,
    platformTelemetry := 0, startupLog := [], disposedServers := [] }

/-- First-match association-list lookup (the `Map.get` of the cache map and
the resolution table of promises). -/
def assocFind {α β : Type} [DecidableEq α] : List (α × β) → α → Option β
  | [], _ => none
  | (k, v) :: rest, key => if k = key then some v else assocFind rest key

/-- Tail of `createServer` after the try/catch: `if (jedi) this.jediServer =
server; return server` (run only when no exception escaped). -/
def finishServer (jedi : Bool) (srv : ServerId) (s : CState) : PResult × CState :=
  (PResult.ok srv, if jedi then { s with jediServer := some srv } else s)

/-- The construction half of `createServer`, after the final value of the
`jedi` flag is known: log the startup line, obtain a fresh instance of the
chosen kind from the container, record it as `currentServer`, call its
`startup`, and on rejection of the DotNet server fall back once to a fresh
Jedi instance (re-raising the error when the choice was already Jedi, or
when the fallback startup also rejects). -/
def startServerPhase (env : CacheEnv) (jedi : Bool) (s : CState) : PResult × CState :=
  let s1 := { s with startupLog := s.startupLog ++ [jedi] }
  let srv := s1.nextServer
  let s2 := { s1 with
    nextServer := srv + 1,
    currentServer := some (jedi, srv),
    startupCalls := s1.startupCalls ++ [srv] }
  match env.startupFails srv with
  | none => finishServer jedi srv s2
  | some e =>
    if jedi then (PResult.err e, s2)
    else
      let s3 := { s2 with startupLog := s2.startupLog ++ [true] }
      let srv2 := s3.nextServer
      let s4 := { s3 with
        nextServer := srv2 + 1,
        currentServer := some (true, srv2),
        startupCalls := s3.startupCalls ++ [srv2] }
      match env.startupFails srv2 with
      | none => finishServer true srv2 s4
      | some e2 => (PResult.err e2, s4)

/-- `LanguageServerCache.createServer`: consult the gate; when it chose the
DotNet server, run the platform diagnostic and force Jedi on findings
(with a telemetry event); when it chose Jedi and the singleton exists,
return the singleton at once; otherwise construct and start a server. -/
def createServer (env : CacheEnv) (s : CState) : PResult × CState :=
  if env.jedi then
    match s.jediServer with
    | some srv => (PResult.ok srv, s)
    | none => startServerPhase env true s
  else
    let s1 :=
      if env.diagnosticNonEmpty then
        { s with platformTelemetry := s.platformTelemetry + 1 }
      else s
    startServerPhase env env.diagnosticNonEmpty s1

/-- `LanguageServerCache.get`: on a hit return the cached promise unchanged;
on a miss run `createServer` and store the resulting promise in the map
(in the source the promise is stored synchronously, before the first await
inside `createServer` can complete). -/
def get (env : CacheEnv) (key : String) (s : CState) : PromiseId × CState :=
  match assocFind s.cache key with
  | some pid => (pid, s)
  | none =>
    let r := createServer env { s with createCalls := s.createCalls + 1 }
    let pid := r.2.nextPromise
    (pid, { r.2 with
      nextPromise := pid + 1,
      promises := r.2.promises ++ [(pid, r.1)],
      cache := r.2.cache ++ [(key, pid)] })

/-- `n` back-to-back calls of `get` with the same key (the sequential
rendering of `n` concurrent callers on the single-threaded event loop),
collecting the returned promises. -/
def getN (env : CacheEnv) (key : String) : Nat → CState → List PromiseId × CState
  | 0, s => ([], s)
  | Nat.succ n, s =>
    let r := get env key s
    let rest := getN env key n r.2
    (r.1 :: rest.1, rest.2)

/-- `LanguageServerCache.onWorkspaceFoldersChanged`: recompute the keys of
the present workspace folders; every cached key not among them has its
promise awaited and the resulting handle disposed (rejected promises are
skipped by the `then` handler and swallowed), and its entry deleted. -/
def onWorkspaceFoldersChanged (workspaceKeys : List String) (s : CState) : CState :=
  let removed := s.cache.filter fun kv => !(decide (kv.fst ∈ workspaceKeys))
  let newlyDisposed := removed.filterMap fun kv =>
    match assocFind s.promises kv.snd with
    | some (PResult.ok srv) => some srv
    | _ => none
  { s with
    cache := s.cache.filter fun kv => decide (kv.fst ∈ workspaceKeys),
    disposedServers := s.disposedServers ++ newlyDisposed }

end LanguageServerCache

namespace DotNetServer

/-- One pass through the readiness-poll loop of `serverReady` observes, at
its suspension point, one external event: nothing (`tick`, a 100ms sleep
with no change), a call of `dispose()` on the handle, or the language
client reporting `initializeResult` (`ready`). -/
inductive PollEvent where
  | tick
  | disposeEvt
  | ready
  deriving Repr, DecidableEq

/-- State of a `DotNetServer` handle:
  * `languageClient`: the created client, if any (numbered by creation);
  * `initializeResult`: whether the current client reports ready;
  * `disposed`: the disposed flag set by `dispose()`;
  * `clientsCreated`: how many language clients were ever created;
  * the three flags record whether the post-ready registration steps
    (progress-reporting wiring, command registration, test-service
    activation) ever ran. -/
structure State where
  languageClient : Option Nat
  initializeResult : Bool
  disposed : Bool
  clientsCreated : Nat
  progressWired : Bool
  commandsRegistered : Bool
  testServicesActivated : Bool
  deriving Repr, DecidableEq

/-- A freshly constructed handle: Idle, nothing created or registered. -/
def initialState : State :=
  { languageClient := none, initializeResult := false, disposed := false,
    clientsCreated := 0, progressWired := false, commandsRegistered := false,
    testServicesActivated := false }

/-- `DotNetServer.dispose`: stop and drop the language client (best effort)
and set the disposed flag.  The registration-history flags are a record of
what ever happened and are not reset. -/
def dispose (s : State) : State :=
  { s with languageClient := none, disposed := true }

/-- Effect of one observed event on the handle state. -/
def applyEvent : PollEvent → State → State
  | PollEvent.tick, s => s
  | PollEvent.disposeEvt, s => dispose s
  | PollEvent.ready, s => { s with initializeResult := true }

/-- `DotNetServer.serverReady`: loop while a language client exists and its
`initializeResult` is unset, observing one external event per iteration.
`none` means the supplied event trace ran out while the loop was still
spinning (the poll is still pending); `some` means the loop exited. -/
def serverReady : List PollEvent → State → Option State
  | [], s =>
    if s.languageClient.isSome && !s.initializeResult then none else some s
  | e :: rest, s =>
    if s.languageClient.isSome && !s.initializeResult then
      serverReady rest (applyEvent e s)
    else some s

/-- `DotNetServer.startLanguageClient`: when no language client exists,
create and start one, poll until ready or disposed, then — unless disposed
in the interim — wire progress reporting, register commands and activate
the test services.  When a client already exists the whole body is skipped
and the call resolves at once (the source contains no throw on this path).
`none` means the readiness poll is still pending. -/
def startLanguageClient (events : List PollEvent) (s : State) : Option State :=
  match s.languageClient with
  | some _ => some s
  | none =>
    let s1 := { s with
      languageClient := some s.clientsCreated,
      clientsCreated := s.clientsCreated + 1,
      initializeResult := false }
    match serverReady events s1 with
    | none => none
    | some s2 =>
      if s2.disposed then some s2
      else some { s2 with
        progressWired := true,
        commandsRegistered := true,
        testServicesActivated := true }

/-- `DotNetServer.startup`: ensure the server artifacts are available and
initialize the analysis options (external collaborators, modelled as
succeeding), then run `startLanguageClient`. -/
def startup (events : List PollEvent) (s : State) : Option State :=
  startLanguageClient events s

/-- The handle state after one successful, undisturbed `startup` from
`initialState` (client created, ready, all registration steps done). -/
def readyState : State :=
  { languageClient := some 0, initializeResult := true, disposed := false,
    clientsCreated := 1, progressWired := true, commandsRegistered := true,
    testServicesActivated := true }

end DotNetServer

namespace LanguageServerCache

/-- Appending a fresh binding to an association list makes it found. -/
theorem assocFind_append_last {α β : Type} [DecidableEq α] (l : List (α × β)) (key : α) (v : β)
    (h : assocFind l key = none) : assocFind (l ++ [(key, v)]) key = some v := by
  induction l with
  | nil => simp [assocFind]
  | cons kv rest ih =>
    obtain ⟨a, b⟩ := kv
    by_cases hk : a = key
    · simp [assocFind, hk] at h
    · simp only [assocFind, hk, if_false, List.cons_append] at h ⊢
      exact ih h

/-- Filtering an association list down to the bindings whose key belongs to
`keep` removes every binding of a key outside `keep`. -/
theorem assocFind_filter_keys {α β : Type} [DecidableEq α] (keep : List α)
    (l : List (α × β)) (key : α) (h : key ∉ keep) :
    assocFind (l.filter fun kv => decide (kv.fst ∈ keep)) key = none := by
  induction l with
  | nil => simp [assocFind]
  | cons kv rest ih =>
    obtain ⟨a, b⟩ := kv
    by_cases hk : a ∈ keep
    · have hne : a ≠ key := fun hEq => h (hEq ▸ hk)
      simp [List.filter_cons, hk, assocFind, hne, ih]
    · simp [List.filter_cons, hk, ih]

/-- `createServer` when the gate chose Jedi and the singleton already
exists: return the singleton, touch nothing. -/
theorem createServer_jedi_singleton (env : CacheEnv) (s : CState) (j : ServerId)
    (hjedi : env.jedi = true) (hs : s.jediServer = some j) :
    createServer env s = (PResult.ok j, s) := by
  simp [createServer, hjedi, hs]

/-- `createServer` when the gate chose Jedi, no singleton exists, and the
fresh Jedi instance starts up successfully. -/
theorem createServer_jedi_ok (env : CacheEnv) (s : CState)
    (hjedi : env.jedi = true) (hs : s.jediServer = none)
    (hok : env.startupFails s.nextServer = none) :
    createServer env s =
      (PResult.ok s.nextServer,
        { s with
          jediServer := some s.nextServer,
          currentServer := some (true, s.nextServer),
          nextServer := s.nextServer + 1,
          startupCalls := s.startupCalls ++ [s.nextServer],
          startupLog := s.startupLog ++ [true] }) := by
  simp [createServer, hjedi, hs, startServerPhase, hok, finishServer]

/-- `createServer` when the gate chose the DotNet server, the platform
diagnostic has no findings, and the DotNet startup succeeds. -/
theorem createServer_dotnet_ok (env : CacheEnv) (s : CState)
    (hjedi : env.jedi = false) (hdiag : env.diagnosticNonEmpty = false)
    (hok : env.startupFails s.nextServer = none) :
    createServer env s =
      (PResult.ok s.nextServer,
        { s with
          currentServer := some (false, s.nextServer),
          nextServer := s.nextServer + 1,
          startupCalls := s.startupCalls ++ [s.nextServer],
          startupLog := s.startupLog ++ [false] }) := by
  simp [createServer, hjedi, hdiag, startServerPhase, hok, finishServer]

/-- `createServer` when the gate chose the DotNet server but the platform
diagnostic forces a Jedi fallback (before any startup), and the fresh Jedi
instance starts up successfully: a new Jedi singleton is installed. -/
theorem createServer_diag_ok (env : CacheEnv) (s : CState)
    (hjedi : env.jedi = false) (hdiag : env.diagnosticNonEmpty = true)
    (hok : env.startupFails s.nextServer = none) :
    createServer env s =
      (PResult.ok s.nextServer,
        { s with
          jediServer := some s.nextServer,
          currentServer := some (true, s.nextServer),
          nextServer := s.nextServer + 1,
          startupCalls := s.startupCalls ++ [s.nextServer],
          platformTelemetry := s.platformTelemetry + 1,
          startupLog := s.startupLog ++ [true] }) := by
  simp [createServer, hjedi, hdiag, startServerPhase, hok, finishServer]

/-- `createServer` when the gate chose Jedi, no singleton exists, and the
Jedi startup rejects: the error propagates, no fallback. -/
theorem createServer_jedi_err (env : CacheEnv) (s : CState) (e : Nat)
    (hjedi : env.jedi = true) (hs : s.jediServer = none)
    (hfail : env.startupFails s.nextServer = some e) :
    createServer env s =
      (PResult.err e,
        { s with
          currentServer := some (true, s.nextServer),
          nextServer := s.nextServer + 1,
          startupCalls := s.startupCalls ++ [s.nextServer],
          startupLog := s.startupLog ++ [true] }) := by
  simp [createServer, hjedi, hs, startServerPhase, hfail]

/-- `createServer` when the DotNet startup rejects and the one-shot Jedi
fallback succeeds: the fallback instance becomes the result and the new
Jedi singleton, with exactly one startup call on each instance. -/
theorem createServer_fallback_ok (env : CacheEnv) (s : CState) (e : Nat)
    (hjedi : env.jedi = false) (hdiag : env.diagnosticNonEmpty = false)
    (hfail : env.startupFails s.nextServer = some e)
    (hok : env.startupFails (s.nextServer + 1) = none) :
    createServer env s =
      (PResult.ok (s.nextServer + 1),
        { s with
          jediServer := some (s.nextServer + 1),
          currentServer := some (true, s.nextServer + 1),
          nextServer := s.nextServer + 1 + 1,
          startupCalls := s.startupCalls ++ [s.nextServer, s.nextServer + 1],
          startupLog := s.startupLog ++ [false, true] }) := by
  simp [createServer, hjedi, hdiag, startServerPhase, hfail, hok, finishServer]

/-- `createServer` when the DotNet startup rejects and the Jedi fallback
startup also rejects: the fallback error propagates, no further attempt. -/
theorem createServer_fallback_err (env : CacheEnv) (s : CState) (e e2 : Nat)
    (hjedi : env.jedi = false) (hdiag : env.diagnosticNonEmpty = false)
    (hfail : env.startupFails s.nextServer = some e)
    (hfail2 : env.startupFails (s.nextServer + 1) = some e2) :
    createServer env s =
      (PResult.err e2,
        { s with
          currentServer := some (true, s.nextServer + 1),
          nextServer := s.nextServer + 1 + 1,
          startupCalls := s.startupCalls ++ [s.nextServer, s.nextServer + 1],
          startupLog := s.startupLog ++ [false, true] }) := by
  simp [createServer, hjedi, hdiag, startServerPhase, hfail, hfail2]

/-- `createServer` when the diagnostic forces a Jedi fallback and the fresh
Jedi instance then fails to start: the error propagates. -/
theorem createServer_diag_err (env : CacheEnv) (s : CState) (e : Nat)
    (hjedi : env.jedi = false) (hdiag : env.diagnosticNonEmpty = true)
    (hfail : env.startupFails s.nextServer = some e) :
    createServer env s =
      (PResult.err e,
        { s with
          currentServer := some (true, s.nextServer),
          nextServer := s.nextServer + 1,
          startupCalls := s.startupCalls ++ [s.nextServer],
          platformTelemetry := s.platformTelemetry + 1,
          startupLog := s.startupLog ++ [true] }) := by
  simp [createServer, hjedi, hdiag, startServerPhase, hfail]

/-- `createServer` never touches the cache map, the promise table, the
promise counter or the `createServer` counter. -/
theorem createServer_frame (env : CacheEnv) (s : CState) :
    (createServer env s).2.cache = s.cache ∧
    (createServer env s).2.nextPromise = s.nextPromise ∧
    (createServer env s).2.promises = s.promises ∧
    (createServer env s).2.createCalls = s.createCalls := by
  cases hj : env.jedi with
  | true =>
    cases hs : s.jediServer with
    | some j => simp [createServer_jedi_singleton env s j hj hs]
    | none =>
      cases hf : env.startupFails s.nextServer with
      | none => simp [createServer_jedi_ok env s hj hs hf]
      | some e => simp [createServer_jedi_err env s e hj hs hf]
  | false =>
    cases hd : env.diagnosticNonEmpty with
    | true =>
      cases hf : env.startupFails s.nextServer with
      | none => simp [createServer_diag_ok env s hj hd hf]
      | some e => simp [createServer_diag_err env s e hj hd hf]
    | false =>
      cases hf : env.startupFails s.nextServer with
      | none => simp [createServer_dotnet_ok env s hj hd hf]
      | some e =>
        cases hf2 : env.startupFails (s.nextServer + 1) with
        | none => simp [createServer_fallback_ok env s e hj hd hf hf2]
        | some e2 => simp [createServer_fallback_err env s e e2 hj hd hf hf2]

/-- A `get` on a cached key returns the cached promise and changes
nothing. -/
theorem get_cached (env : CacheEnv) (key : String) (s : CState) (pid : PromiseId)
    (h : assocFind s.cache key = some pid) : get env key s = (pid, s) := by
  simp [get, h]

/-- Any number of `get` calls on a cached key all return the cached promise
and change nothing. -/
theorem getN_cached (env : CacheEnv) (key : String) (n : Nat) (s : CState) (pid : PromiseId)
    (h : assocFind s.cache key = some pid) :
    getN env key n s = (List.replicate n pid, s) := by
  induction n with
  | zero => simp [getN]
  | succ k ih => simp [getN, get, h, ih, List.replicate_succ]

end LanguageServerCache

namespace DotNetServer

/-- The readiness poll exits at once when no language client exists. -/
theorem serverReady_client_none (evs : List PollEvent) (s : State)
    (h : s.languageClient = none) : serverReady evs s = some s := by
  cases evs <;> simp [serverReady, h]

/-- A readiness poll that spins for `k` iterations and then observes a
`dispose()` call terminates, in the disposed state, whatever happens
afterwards. -/
theorem serverReady_tick_dispose (k : Nat) (rest : List PollEvent) (s : State)
    (h1 : s.languageClient.isSome = true) (h2 : s.initializeResult = false) :
    serverReady (List.replicate k PollEvent.tick ++ PollEvent.disposeEvt :: rest) s
      = some (dispose s) := by
  induction k with
  | zero =>
    simp only [List.replicate, List.nil_append, serverReady, h1, h2]
    simp only [Bool.not_false, Bool.and_true, if_true, applyEvent]
    exact serverReady_client_none rest (dispose s) rfl
  | succ n ih =>
    simp only [List.replicate_succ, List.cons_append, serverReady, h1, h2]
    simp only [Bool.not_false, Bool.and_true, if_true, applyEvent]
    exact ih

end DotNetServer

namespace LanguageServerCache

/-- A `get` on a missing key returns the next promise id and bumps the
`createServer` counter, whatever the environment does. -/
theorem get_miss (env : CacheEnv) (key : String) (t : CState)
    (h : assocFind t.cache key = none) :
    (get env key t).1 = t.nextPromise ∧
    (get env key t).2.createCalls = t.createCalls + 1 := by
  have hframe := createServer_frame env { t with createCalls := t.createCalls + 1 }
  constructor
  · simp [get, h, hframe.2.1]
  · simp [get, h, hframe.2.2.2]

/-- Characterization of `sendTelemetryForChosenLanguageServer`: exactly one
selection event is appended — the `switchTo` variant precisely when the
persisted slot held the opposite boolean — and the slot ends up holding the
current outcome. -/
theorem sendTelemetry_spec (jediEnabled : Bool) (st : GateState) :
    (sendTelemetryForChosenLanguageServer jediEnabled st).selectionEvents
      = st.selectionEvents ++
        [if st.switchLS = some (!jediEnabled) then SelectionTelemetry.switchTo jediEnabled
          else SelectionTelemetry.lsStartup jediEnabled] ∧
    (sendTelemetryForChosenLanguageServer jediEnabled st).switchLS = some jediEnabled := by
  rcases hslot : st.switchLS with _ | b
  · simp [sendTelemetryForChosenLanguageServer, hslot]
  · cases b <;> cases jediEnabled <;>
      simp_all [sendTelemetryForChosenLanguageServer]

/-- Claim C1: for any number `n ≥ 1` of concurrent (that is, back-to-back
on the single-threaded event loop) `get` calls with the same fresh key —
in an environment where the started engine's `startup` succeeds and, if the
gate chose Jedi, no singleton pre-exists — all `n` calls return the same
promise, exactly one `createServer` run occurs, exactly one `startup` call
is made, and the shared promise resolves to the one constructed handle. -/
theorem claimC1 (env : CacheEnv) (key : String) (s : CState) (n : Nat)
    (hn : 1 ≤ n)
    (hkey : assocFind s.cache key = none)
    (hok : env.startupFails s.nextServer = none)
    (hsing : env.jedi = true → s.jediServer = none)
    (hfresh : assocFind s.promises s.nextPromise = none) :
    (getN env key n s).1 = List.replicate n s.nextPromise ∧
    (getN env key n s).2.createCalls = s.createCalls + 1 ∧
    (getN env key n s).2.startupCalls = s.startupCalls ++ [s.nextServer] ∧
    assocFind (getN env key n s).2.promises s.nextPromise
      = some (PResult.ok s.nextServer) := by
  have hmain : (get env key s).1 = s.nextPromise ∧
      (get env key s).2.cache = s.cache ++ [(key, s.nextPromise)] ∧
      (get env key s).2.promises
        = s.promises ++ [(s.nextPromise, PResult.ok s.nextServer)] ∧
      (get env key s).2.createCalls = s.createCalls + 1 ∧
      (get env key s).2.startupCalls = s.startupCalls ++ [s.nextServer] := by
    cases hj : env.jedi with
    | true =>
      have hcs := createServer_jedi_ok env { s with createCalls := s.createCalls + 1 }
        hj (hsing hj) hok
      refine ⟨?_, ?_, ?_, ?_, ?_⟩ <;> simp [get, hkey, hcs]
    | false =>
      cases hd : env.diagnosticNonEmpty with
      | false =>
        have hcs := createServer_dotnet_ok env { s with createCalls := s.createCalls + 1 }
          hj hd hok
        refine ⟨?_, ?_, ?_, ?_, ?_⟩ <;> simp [get, hkey, hcs]
      | true =>
        have hcs := createServer_diag_ok env { s with createCalls := s.createCalls + 1 }
          hj hd hok
        refine ⟨?_, ?_, ?_, ?_, ?_⟩ <;> simp [get, hkey, hcs]
  obtain ⟨h1, h2, h3, h4, h5⟩ := hmain
  obtain ⟨m, rfl⟩ : ∃ m, n = m + 1 := ⟨n - 1, (Nat.succ_pred_eq_of_pos hn).symm⟩
  have hc2 : assocFind (get env key s).2.cache key = some s.nextPromise := by
    rw [h2]
    exact assocFind_append_last s.cache key s.nextPromise hkey
  have hN := getN_cached env key m (get env key s).2 s.nextPromise hc2
  have hstep : getN env key (m + 1) s
      = (s.nextPromise :: List.replicate m s.nextPromise, (get env key s).2) := by
    simp [getN, hN, h1]
  rw [hstep]
  refine ⟨by simp [List.replicate_succ], h4, h5, ?_⟩
  rw [h3]
  exact assocFind_append_last s.promises s.nextPromise (PResult.ok s.nextServer) hfresh

/-- Claim C2: when the gate selects the DotNet (rich) server, the platform
diagnostic is clean, the rich startup rejects and the one-shot Jedi
fallback starts up successfully, `get` resolves to the fallback Jedi
handle, whose `startup` was called exactly once (the startup log grows by
exactly the rich call and the one fallback call), and the fallback handle
becomes the Jedi singleton. -/
theorem claimC2 (env : CacheEnv) (key : String) (s : CState) (e : Nat)
    (hkey : assocFind s.cache key = none)
    (hjedi : env.jedi = false) (hdiag : env.diagnosticNonEmpty = false)
    (hfail : env.startupFails s.nextServer = some e)
    (hok : env.startupFails (s.nextServer + 1) = none) :
    (get env key s).1 = s.nextPromise ∧
    (get env key s).2.promises
      = s.promises ++ [(s.nextPromise, PResult.ok (s.nextServer + 1))] ∧
    (get env key s).2.startupCalls = s.startupCalls ++ [s.nextServer, s.nextServer + 1] ∧
    (get env key s).2.jediServer = some (s.nextServer + 1) := by
  have hcs := createServer_fallback_ok env { s with createCalls := s.createCalls + 1 } e
    hjedi hdiag hfail hok
  refine ⟨?_, ?_, ?_, ?_⟩ <;> simp [get, hkey, hcs]

/-- Claim C3: when the Jedi (lightweight) engine is the chosen kind and its
`startup` rejects, `get` rejects with that same error and no further
startup call is attempted.  First conjunct (environment `env1`): the gate
selected Jedi (no singleton yet) — one startup call, its error is the
cached rejection.  Second conjunct (environment `env2`): fallback had
already switched to Jedi after a rich failure — the fallback error is the
cached rejection and only the two startup calls (rich, then Jedi) ever
happen. -/
theorem claimC3 (env1 env2 : CacheEnv) (key : String) (s : CState) (e e2 : Nat)
    (hkey : assocFind s.cache key = none)
    (hj1 : env1.jedi = true) (hs1 : s.jediServer = none)
    (hf1 : env1.startupFails s.nextServer = some e)
    (hj2 : env2.jedi = false) (hd2 : env2.diagnosticNonEmpty = false)
    (hf2 : env2.startupFails s.nextServer = some e)
    (hf3 : env2.startupFails (s.nextServer + 1) = some e2) :
    ((get env1 key s).2.promises = s.promises ++ [(s.nextPromise, PResult.err e)] ∧
      (get env1 key s).2.startupCalls = s.startupCalls ++ [s.nextServer]) ∧
    ((get env2 key s).2.promises = s.promises ++ [(s.nextPromise, PResult.err e2)] ∧
      (get env2 key s).2.startupCalls
        = s.startupCalls ++ [s.nextServer, s.nextServer + 1]) := by
  constructor
  · have hcs := createServer_jedi_err env1 { s with createCalls := s.createCalls + 1 } e
      hj1 hs1 hf1
    constructor <;> simp [get, hkey, hcs]
  · have hcs := createServer_fallback_err env2 { s with createCalls := s.createCalls + 1 } e e2
      hj2 hd2 hf2 hf3
    constructor <;> simp [get, hkey, hcs]

/-- Claim C4, counterexample: the first resource resolves to the Jedi
handle 0 (which becomes the singleton); a second, distinct resource whose
gate chose the DotNet server but whose platform diagnostic forces the Jedi
fallback does NOT receive the cached singleton: it gets a freshly
constructed handle 1 and a second startup call occurs — refuting the
claim for the platform-diagnostic fallback path. -/
theorem claimC4_counterexample :
    (get { jedi := true, diagnosticNonEmpty := false, startupFails := fun _ => none }
        "w1-" initialCState).2.jediServer = some 0 ∧
    assocFind (get { jedi := true, diagnosticNonEmpty := false, startupFails := fun _ => none }
        "w1-" initialCState).2.promises 0 = some (PResult.ok 0) ∧
    assocFind (get { jedi := false, diagnosticNonEmpty := true, startupFails := fun _ => none }
        "w2-"
        (get { jedi := true, diagnosticNonEmpty := false, startupFails := fun _ => none }
          "w1-" initialCState).2).2.promises 1 = some (PResult.ok 1) ∧
    (get { jedi := false, diagnosticNonEmpty := true, startupFails := fun _ => none }
        "w2-"
        (get { jedi := true, diagnosticNonEmpty := false, startupFails := fun _ => none }
          "w1-" initialCState).2).2.startupCalls = [0, 1] := by decide

/-- Claim C4, amended: the Jedi singleton is reused — with no further
`startup` call — only when the configuration gate itself selects Jedi
(`useJedi` returned true); the get then resolves to the stored singleton
handle unchanged.  (The diagnostic-forced and startup-failure fallback
paths instead construct, start and store a fresh Jedi handle, as the
counterexample shows.) -/
theorem claimC4 (env : CacheEnv) (key : String) (s : CState) (j : ServerId)
    (hjedi : env.jedi = true) (hs : s.jediServer = some j)
    (hkey : assocFind s.cache key = none) :
    (get env key s).1 = s.nextPromise ∧
    (get env key s).2.promises = s.promises ++ [(s.nextPromise, PResult.ok j)] ∧
    (get env key s).2.startupCalls = s.startupCalls ∧
    (get env key s).2.jediServer = some j := by
  have hcs := createServer_jedi_singleton env { s with createCalls := s.createCalls + 1 } j
    hjedi hs
  rw [hs] at hcs
  refine ⟨?_, ?_, ?_, ?_⟩ <;> simp [get, hkey, hcs, hs]

end LanguageServerCache

namespace LanguageServerCache

/-- Claim C5, counterexample: with the setting unset at all three scopes
and the session a member of the `LSEnabled` experiment, `useJedi` returns
`false`, i.e. the gate chooses the DotNet (rich) language server — not
the lightweight (Jedi) engine as the claim states — even though the
effective default of the setting is `true` (Jedi). -/
theorem claimC5_counterexample :
    (useJedi { inspectJediEnabled := some { globalValue := none, workspaceValue := none,
                                            workspaceFolderValue := none },
               inLSEnabledExperiment := true,
               inLSControlExperiment := false,
               settingsJediEnabled := true }
        initialGateState).1 = false := by decide

/-- Claim C5, amended: when the engine-choice setting is unset at every
scope, membership in the `LSEnabled` experiment makes the gate choose the
DotNet (rich) language server; otherwise — no membership, or the setting
explicitly set at some scope (and also when the inspect call fails) — the
effective settings value decides and the experiment is ignored. -/
theorem claimC5 (env1 env2 env3 : GateEnv) (st1 st2 st3 : GateState)
    (h1a : isJediUsingDefaultConfiguration env1 = true)
    (h1b : env1.inLSEnabledExperiment = true)
    (h2a : isJediUsingDefaultConfiguration env2 = true)
    (h2b : env2.inLSEnabledExperiment = false)
    (h3 : isJediUsingDefaultConfiguration env3 = false) :
    (useJedi env1 st1).1 = false ∧
    (useJedi env2 st2).1 = env2.settingsJediEnabled ∧
    (useJedi env3 st3).1 = env3.settingsJediEnabled := by
  refine ⟨?_, ?_, ?_⟩
  · simp [useJedi, h1a, h1b]
  · simp [useJedi, h2a, h2b]
  · simp [useJedi, h3]

/-- Claim C8, counterexample: two concrete gate evaluations refute the
claim.  First, with a fully-default configuration and `LSEnabled`
membership the evaluation emits no selection event at all (not exactly
one).  Second, a first-time evaluation (persisted slot still undefined)
emits the low-signal `lsStartup` variant, not the high-signal `switchTo`
variant the claim promises for a first-time outcome. -/
theorem claimC8_counterexample :
    (useJedi { inspectJediEnabled := some { globalValue := none, workspaceValue := none,
                                            workspaceFolderValue := none },
               inLSEnabledExperiment := true,
               inLSControlExperiment := false,
               settingsJediEnabled := true }
        initialGateState).2.selectionEvents = [] ∧
    (useJedi { inspectJediEnabled := none, inLSEnabledExperiment := false,
               inLSControlExperiment := false, settingsJediEnabled := true }
        initialGateState).2.selectionEvents = [SelectionTelemetry.lsStartup true] := by decide

/-- Claim C8, amended: except for the default-configuration `LSEnabled`
early return (which emits nothing), every gate evaluation emits exactly one
selection telemetry event; the `switchTo` (high-signal) variant is emitted
precisely when the persisted slot already held the opposite boolean — a
first-time evaluation initializes the slot first and therefore emits the
`lsStartup` (low-signal) variant, like a repeat with the same outcome —
and the slot ends up holding the current outcome. -/
theorem claimC8 (env1 env2 : GateEnv) (st1 st2 : GateState)
    (h1 : (isJediUsingDefaultConfiguration env1 && env1.inLSEnabledExperiment) = true)
    (h2 : (isJediUsingDefaultConfiguration env2 && env2.inLSEnabledExperiment) = false) :
    (useJedi env1 st1).2.selectionEvents = st1.selectionEvents ∧
    (useJedi env2 st2).2.selectionEvents
      = st2.selectionEvents ++
        [if st2.switchLS = some (!env2.settingsJediEnabled) then
            SelectionTelemetry.switchTo env2.settingsJediEnabled
          else SelectionTelemetry.lsStartup env2.settingsJediEnabled] ∧
    (useJedi env2 st2).2.switchLS = some env2.settingsJediEnabled := by
  constructor
  · rw [Bool.and_eq_true] at h1
    simp [useJedi, h1.1, h1.2]
  · cases hdef : isJediUsingDefaultConfiguration env2 with
    | false =>
      have hspec := sendTelemetry_spec env2.settingsJediEnabled st2
      simp [useJedi, hdef, hspec.1, hspec.2]
    | true =>
      have hexp : env2.inLSEnabledExperiment = false := by
        rw [hdef] at h2
        simpa using h2
      cases hc : env2.inLSControlExperiment with
      | false =>
        have hspec := sendTelemetry_spec env2.settingsJediEnabled st2
        simp [useJedi, hdef, hexp, hc, hspec.1, hspec.2]
      | true =>
        have hspec := sendTelemetry_spec env2.settingsJediEnabled
          { st2 with controlGroupTelemetry := st2.controlGroupTelemetry + 1 }
        simp only [useJedi, hdef, hexp, hc, if_true, if_false, Bool.false_eq_true]
        refine ⟨?_, ?_⟩
        · rw [hspec.1]
        · rw [hspec.2]

/-- Claim C9: on a workspace-folders-change event, every cached key that is
not among the keys of the present workspace folders has its entry evicted
and (when its promise had resolved) its handle scheduled for disposal;
entries whose keys are still present are kept untouched; and a later `get`
for an evicted key misses and triggers a fresh construction (a new promise
id and one more `createServer` run). -/
theorem claimC9 (wk : List String) (s : CState) (keyGone keyKept : String)
    (pidGone pidKept : PromiseId) (srv : ServerId) (env : CacheEnv)
    (hgone : keyGone ∉ wk) (hmemGone : (keyGone, pidGone) ∈ s.cache)
    (hres : assocFind s.promises pidGone = some (PResult.ok srv))
    (hkept : keyKept ∈ wk) (hmemKept : (keyKept, pidKept) ∈ s.cache) :
    assocFind (onWorkspaceFoldersChanged wk s).cache keyGone = none ∧
    srv ∈ (onWorkspaceFoldersChanged wk s).disposedServers ∧
    (keyKept, pidKept) ∈ (onWorkspaceFoldersChanged wk s).cache ∧
    (get env keyGone (onWorkspaceFoldersChanged wk s)).1 = s.nextPromise ∧
    (get env keyGone (onWorkspaceFoldersChanged wk s)).2.createCalls
      = s.createCalls + 1 := by
  have hnone : assocFind (onWorkspaceFoldersChanged wk s).cache keyGone = none := by
    simp only [onWorkspaceFoldersChanged]
    exact assocFind_filter_keys wk s.cache keyGone hgone
  obtain ⟨hm1, hm2⟩ := get_miss env keyGone (onWorkspaceFoldersChanged wk s) hnone
  refine ⟨hnone, ?_, ?_, ?_, ?_⟩
  · simp only [onWorkspaceFoldersChanged]
    apply List.mem_append_right
    apply List.mem_filterMap.mpr
    refine ⟨(keyGone, pidGone), ?_, ?_⟩
    · exact List.mem_filter.mpr ⟨hmemGone, by simp [hgone]⟩
    · simp [hres]
  · simp only [onWorkspaceFoldersChanged]
    exact List.mem_filter.mpr ⟨hmemKept, by simp [hkept]⟩
  · rw [hm1]
    simp [onWorkspaceFoldersChanged]
  · rw [hm2]
    simp [onWorkspaceFoldersChanged]

/-- Claim C10: when the construction rejects (here: the gate chose Jedi, no
singleton existed, and the Jedi startup failed with error `e`), the
rejected promise stays in the cache: every later `get` with the same key,
under any environment, returns the very same promise and state (no retried
construction) — until a workspace-folders change removes the key, after
which the key misses and the next `get` runs a fresh construction. -/
theorem claimC10 (env env2 env3 : CacheEnv) (key : String) (s : CState) (e : Nat)
    (wk : List String)
    (hkey : assocFind s.cache key = none)
    (hjedi : env.jedi = true) (hs : s.jediServer = none)
    (hfail : env.startupFails s.nextServer = some e)
    (hnot : key ∉ wk) :
    (get env key s).2.promises = s.promises ++ [(s.nextPromise, PResult.err e)] ∧
    get env2 key (get env key s).2 = ((get env key s).1, (get env key s).2) ∧
    assocFind (onWorkspaceFoldersChanged wk (get env key s).2).cache key = none ∧
    (get env3 key (onWorkspaceFoldersChanged wk (get env key s).2)).2.createCalls
      = (get env key s).2.createCalls + 1 := by
  have hcs := createServer_jedi_err env { s with createCalls := s.createCalls + 1 } e
    hjedi hs hfail
  have hcache : (get env key s).2.cache = s.cache ++ [(key, s.nextPromise)] := by
    simp [get, hkey, hcs]
  have h1 : (get env key s).1 = s.nextPromise := by
    simp [get, hkey, hcs]
  have hfound : assocFind (get env key s).2.cache key = some s.nextPromise := by
    rw [hcache]
    exact assocFind_append_last s.cache key s.nextPromise hkey
  have hnone : assocFind (onWorkspaceFoldersChanged wk (get env key s).2).cache key
      = none := by
    simp only [onWorkspaceFoldersChanged]
    exact assocFind_filter_keys wk (get env key s).2.cache key hnot
  refine ⟨?_, ?_, hnone, ?_⟩
  · simp [get, hkey, hcs]
  · rw [get_cached env2 key (get env key s).2 s.nextPromise hfound, h1]
  · rw [(get_miss env3 key (onWorkspaceFoldersChanged wk (get env key s).2) hnone).2]
    simp [onWorkspaceFoldersChanged]

end LanguageServerCache

namespace DotNetServer

/-- Claim C6, behaviour at the failing input: after one completed `startup`
(`readyState`: client created, ready, registrations done), a second call
of `startup` on the same handle resolves successfully and returns the
state unchanged — no second client, no work, and in particular no thrown
"already started" error (`startLanguageClient` silently skips its whole
body when `languageClient` is already set).  The repository's own test
suite expects this second call to reject with "Language Server already
started". -/
theorem claimC6 :
    startup [PollEvent.ready] initialState = some readyState ∧
    startup [] readyState = some readyState := by decide

/-- Claim C7: if `dispose()` is observed while the readiness poll is still
spinning (after any number `k` of idle poll iterations, and whatever
events follow), the poll terminates, `startup` resolves (no hang, and this
code path has no throw site), and none of the post-ready registration
steps happen: progress reporting is not wired, no command is registered,
and the dependent test services are never activated. -/
theorem claimC7 (k : Nat) (rest : List PollEvent) :
    startup (List.replicate k PollEvent.tick ++ PollEvent.disposeEvt :: rest) initialState
      = some { languageClient := none, initializeResult := false, disposed := true,
               clientsCreated := 1, progressWired := false, commandsRegistered := false,
               testServicesActivated := false } := by
  have h := serverReady_tick_dispose k rest
      { languageClient := some 0, initializeResult := false, disposed := false,
        clientsCreated := 1, progressWired := false, commandsRegistered := false,
        testServicesActivated := false } rfl rfl
  simp [startup, startLanguageClient, initialState, h, dispose]

end DotNetServer

namespace LanguageServerCache

/-- Witness for claim C1 at a concrete input: three concurrent `get` calls
for a fresh key against a gate-selects-Jedi environment whose startup
succeeds — one construction, one startup, one shared promise. -/
theorem claimC1_witness :
    (1 ≤ 3 ∧
      assocFind initialCState.cache "ws-" = none ∧
      ({ jedi := true, diagnosticNonEmpty := false,
         startupFails := fun _ => none } : CacheEnv).startupFails
          initialCState.nextServer = none ∧
      assocFind initialCState.promises initialCState.nextPromise = none) ∧
    ((getN { jedi := true, diagnosticNonEmpty := false, startupFails := fun _ => none }
        "ws-" 3 initialCState).1 = List.replicate 3 0 ∧
      (getN { jedi := true, diagnosticNonEmpty := false, startupFails := fun _ => none }
        "ws-" 3 initialCState).2.createCalls = 1 ∧
      (getN { jedi := true, diagnosticNonEmpty := false, startupFails := fun _ => none }
        "ws-" 3 initialCState).2.startupCalls = [0] ∧
      assocFind (getN { jedi := true, diagnosticNonEmpty := false,
                        startupFails := fun _ => none }
          "ws-" 3 initialCState).2.promises 0
        = some (PResult.ok 0)) :=
  ⟨⟨by decide, by decide, by decide, by decide⟩,
    claimC1 { jedi := true, diagnosticNonEmpty := false, startupFails := fun _ => none }
      "ws-" initialCState 3 (by decide) (by decide) (by decide) (fun _ => by decide)
      (by decide)⟩

/-- Witness for claim C2 at a concrete input: the rich startup rejects with
error 7, the Jedi fallback (instance 1) succeeds, is started exactly once
and becomes both the resolution and the singleton. -/
theorem claimC2_witness :
    (assocFind initialCState.cache "ws-" = none ∧
      ({ jedi := false, diagnosticNonEmpty := false,
         startupFails := fun k => if k = 0 then some 7 else none } : CacheEnv).jedi
          = false ∧
      ({ jedi := false, diagnosticNonEmpty := false,
         startupFails := fun k => if k = 0 then some 7 else none } : CacheEnv).startupFails
          initialCState.nextServer = some 7 ∧
      ({ jedi := false, diagnosticNonEmpty := false,
         startupFails := fun k => if k = 0 then some 7 else none } : CacheEnv).startupFails
          (initialCState.nextServer + 1) = none) ∧
    ((get { jedi := false, diagnosticNonEmpty := false,
            startupFails := fun k => if k = 0 then some 7 else none }
        "ws-" initialCState).1 = 0 ∧
      (get { jedi := false, diagnosticNonEmpty := false,
             startupFails := fun k => if k = 0 then some 7 else none }
        "ws-" initialCState).2.promises = [(0, PResult.ok 1)] ∧
      (get { jedi := false, diagnosticNonEmpty := false,
             startupFails := fun k => if k = 0 then some 7 else none }
        "ws-" initialCState).2.startupCalls = [0, 1] ∧
      (get { jedi := false, diagnosticNonEmpty := false,
             startupFails := fun k => if k = 0 then some 7 else none }
        "ws-" initialCState).2.jediServer = some 1) :=
  ⟨⟨by decide, by decide, by decide, by decide⟩,
    claimC2 { jedi := false, diagnosticNonEmpty := false,
              startupFails := fun k => if k = 0 then some 7 else none }
      "ws-" initialCState 7 (by decide) (by decide) (by decide) (by decide) (by decide)⟩

/-- Witness for claim C3 at concrete inputs: a gate-selects-Jedi run whose
Jedi startup rejects with 5 (one startup, rejection 5 cached), and a
rich-then-fallback run whose fallback rejects with 6 (two startups,
rejection 6 cached). -/
theorem claimC3_witness :
    (assocFind initialCState.cache "ws-" = none ∧
      initialCState.jediServer = none) ∧
    (((get { jedi := true, diagnosticNonEmpty := false, startupFails := fun _ => some 5 }
        "ws-" initialCState).2.promises = [(0, PResult.err 5)] ∧
      (get { jedi := true, diagnosticNonEmpty := false, startupFails := fun _ => some 5 }
        "ws-" initialCState).2.startupCalls = [0]) ∧
    ((get { jedi := false, diagnosticNonEmpty := false,
            startupFails := fun k => if k = 0 then some 5 else some 6 }
        "ws-" initialCState).2.promises = [(0, PResult.err 6)] ∧
      (get { jedi := false, diagnosticNonEmpty := false,
             startupFails := fun k => if k = 0 then some 5 else some 6 }
        "ws-" initialCState).2.startupCalls = [0, 1])) :=
  ⟨⟨by decide, by decide⟩,
    claimC3 { jedi := true, diagnosticNonEmpty := false, startupFails := fun _ => some 5 }
      { jedi := false, diagnosticNonEmpty := false,
        startupFails := fun k => if k = 0 then some 5 else some 6 }
      "ws-" initialCState 5 6 (by decide) (by decide) (by decide) (by decide) (by decide)
      (by decide) (by decide) (by decide)⟩

/-- Witness for claim C4 (amended) at a concrete input: with singleton
handle 4 stored and the gate selecting Jedi, a fresh key resolves to
handle 4 with no startup call. -/
theorem claimC4_witness :
    (({ jedi := true, diagnosticNonEmpty := false,
        startupFails := fun _ => none } : CacheEnv).jedi = true ∧
      ({ initialCState with jediServer := some 4 } : CState).jediServer = some 4 ∧
      assocFind ({ initialCState with jediServer := some 4 } : CState).cache "ws-" = none) ∧
    ((get { jedi := true, diagnosticNonEmpty := false, startupFails := fun _ => none }
        "ws-" { initialCState with jediServer := some 4 }).1 = 0 ∧
      (get { jedi := true, diagnosticNonEmpty := false, startupFails := fun _ => none }
        "ws-" { initialCState with jediServer := some 4 }).2.promises
        = [(0, PResult.ok 4)] ∧
      (get { jedi := true, diagnosticNonEmpty := false, startupFails := fun _ => none }
        "ws-" { initialCState with jediServer := some 4 }).2.startupCalls = [] ∧
      (get { jedi := true, diagnosticNonEmpty := false, startupFails := fun _ => none }
        "ws-" { initialCState with jediServer := some 4 }).2.jediServer = some 4) :=
  ⟨⟨by decide, by decide, by decide⟩,
    claimC4 { jedi := true, diagnosticNonEmpty := false, startupFails := fun _ => none }
      "ws-" { initialCState with jediServer := some 4 } 4 (by decide) (by decide)
      (by decide)⟩

/-- Witness for claim C5 (amended) at concrete inputs: default
configuration plus `LSEnabled` membership gives the DotNet server; default
configuration without membership gives the settings value; an explicitly
set scope gives the settings value with the experiment ignored. -/
theorem claimC5_witness :
    (isJediUsingDefaultConfiguration
        { inspectJediEnabled := some { globalValue := none, workspaceValue := none,
                                       workspaceFolderValue := none },
          inLSEnabledExperiment := true, inLSControlExperiment := false,
          settingsJediEnabled := true } = true ∧
      isJediUsingDefaultConfiguration
        { inspectJediEnabled := some { globalValue := none, workspaceValue := none,
                                       workspaceFolderValue := none },
          inLSEnabledExperiment := false, inLSControlExperiment := false,
          settingsJediEnabled := true } = true ∧
      isJediUsingDefaultConfiguration
        { inspectJediEnabled := some { globalValue := some false, workspaceValue := none,
                                       workspaceFolderValue := none },
          inLSEnabledExperiment := true, inLSControlExperiment := false,
          settingsJediEnabled := false } = false) ∧
    ((useJedi { inspectJediEnabled := some { globalValue := none, workspaceValue := none,
                                             workspaceFolderValue := none },
                inLSEnabledExperiment := true, inLSControlExperiment := false,
                settingsJediEnabled := true } initialGateState).1 = false ∧
      (useJedi { inspectJediEnabled := some { globalValue := none, workspaceValue := none,
                                              workspaceFolderValue := none },
                 inLSEnabledExperiment := false, inLSControlExperiment := false,
                 settingsJediEnabled := true } initialGateState).1 = true ∧
      (useJedi { inspectJediEnabled := some { globalValue := some false,
                                              workspaceValue := none,
                                              workspaceFolderValue := none },
                 inLSEnabledExperiment := true, inLSControlExperiment := false,
                 settingsJediEnabled := false } initialGateState).1 = false) :=
  ⟨⟨by decide, by decide, by decide⟩,
    claimC5
      { inspectJediEnabled := some { globalValue := none, workspaceValue := none,
                                     workspaceFolderValue := none },
        inLSEnabledExperiment := true, inLSControlExperiment := false,
        settingsJediEnabled := true }
      { inspectJediEnabled := some { globalValue := none, workspaceValue := none,
                                     workspaceFolderValue := none },
        inLSEnabledExperiment := false, inLSControlExperiment := false,
        settingsJediEnabled := true }
      { inspectJediEnabled := some { globalValue := some false, workspaceValue := none,
                                     workspaceFolderValue := none },
        inLSEnabledExperiment := true, inLSControlExperiment := false,
        settingsJediEnabled := false }
      initialGateState initialGateState initialGateState
      (by decide) (by decide) (by decide) (by decide) (by decide)⟩

/-- Witness for claim C8 (amended) at concrete inputs: the experiment early
return emits nothing, and a first-time evaluation (slot undefined) emits
exactly one event, the `lsStartup` variant, and fills the slot. -/
theorem claimC8_witness :
    ((isJediUsingDefaultConfiguration
        { inspectJediEnabled := some { globalValue := none, workspaceValue := none,
                                       workspaceFolderValue := none },
          inLSEnabledExperiment := true, inLSControlExperiment := false,
          settingsJediEnabled := true } &&
        GateEnv.inLSEnabledExperiment
          { inspectJediEnabled := some { globalValue := none, workspaceValue := none,
                                         workspaceFolderValue := none },
            inLSEnabledExperiment := true, inLSControlExperiment := false,
            settingsJediEnabled := true }) = true ∧
      (isJediUsingDefaultConfiguration
        { inspectJediEnabled := none, inLSEnabledExperiment := false,
          inLSControlExperiment := false, settingsJediEnabled := true } &&
        GateEnv.inLSEnabledExperiment
          { inspectJediEnabled := none, inLSEnabledExperiment := false,
            inLSControlExperiment := false, settingsJediEnabled := true }) = false) ∧
    ((useJedi { inspectJediEnabled := some { globalValue := none, workspaceValue := none,
                                             workspaceFolderValue := none },
                inLSEnabledExperiment := true, inLSControlExperiment := false,
                settingsJediEnabled := true } initialGateState).2.selectionEvents = [] ∧
      (useJedi { inspectJediEnabled := none, inLSEnabledExperiment := false,
                 inLSControlExperiment := false, settingsJediEnabled := true }
        initialGateState).2.selectionEvents = [SelectionTelemetry.lsStartup true] ∧
      (useJedi { inspectJediEnabled := none, inLSEnabledExperiment := false,
                 inLSControlExperiment := false, settingsJediEnabled := true }
        initialGateState).2.switchLS = some true) :=
  ⟨⟨by decide, by decide⟩,
    claimC8
      { inspectJediEnabled := some { globalValue := none, workspaceValue := none,
                                     workspaceFolderValue := none },
        inLSEnabledExperiment := true, inLSControlExperiment := false,
        settingsJediEnabled := true }
      { inspectJediEnabled := none, inLSEnabledExperiment := false,
        inLSControlExperiment := false, settingsJediEnabled := true }
      initialGateState initialGateState (by decide) (by decide)⟩

/-- Witness for claim C9 at a concrete input: a cache holding keys for two
folders; after the event with only the second folder present, the first
entry is evicted and its handle 0 disposed, the second entry survives, and
a re-request of the removed key runs a fresh construction. -/
theorem claimC9_witness :
    (("gone-" ∉ (["kept-"] : List String)) ∧
      ("gone-", 0) ∈ ({ initialCState with
          cache := [("gone-", 0), ("kept-", 1)],
          promises := [(0, PResult.ok 0), (1, PResult.ok 1)],
          nextServer := 2, nextPromise := 2, createCalls := 2 } : CState).cache ∧
      assocFind ({ initialCState with
          cache := [("gone-", 0), ("kept-", 1)],
          promises := [(0, PResult.ok 0), (1, PResult.ok 1)],
          nextServer := 2, nextPromise := 2, createCalls := 2 } : CState).promises 0
        = some (PResult.ok 0) ∧
      ("kept-" ∈ (["kept-"] : List String)) ∧
      ("kept-", 1) ∈ ({ initialCState with
          cache := [("gone-", 0), ("kept-", 1)],
          promises := [(0, PResult.ok 0), (1, PResult.ok 1)],
          nextServer := 2, nextPromise := 2, createCalls := 2 } : CState).cache) ∧
    (assocFind (onWorkspaceFoldersChanged ["kept-"]
        { initialCState with
          cache := [("gone-", 0), ("kept-", 1)],
          promises := [(0, PResult.ok 0), (1, PResult.ok 1)],
          nextServer := 2, nextPromise := 2, createCalls := 2 }).cache "gone-" = none ∧
      0 ∈ (onWorkspaceFoldersChanged ["kept-"]
        { initialCState with
          cache := [("gone-", 0), ("kept-", 1)],
          promises := [(0, PResult.ok 0), (1, PResult.ok 1)],
          nextServer := 2, nextPromise := 2, createCalls := 2 }).disposedServers ∧
      ("kept-", 1) ∈ (onWorkspaceFoldersChanged ["kept-"]
        { initialCState with
          cache := [("gone-", 0), ("kept-", 1)],
          promises := [(0, PResult.ok 0), (1, PResult.ok 1)],
          nextServer := 2, nextPromise := 2, createCalls := 2 }).cache ∧
      (get { jedi := true, diagnosticNonEmpty := false, startupFails := fun _ => none }
        "gone-" (onWorkspaceFoldersChanged ["kept-"]
          { initialCState with
            cache := [("gone-", 0), ("kept-", 1)],
            promises := [(0, PResult.ok 0), (1, PResult.ok 1)],
            nextServer := 2, nextPromise := 2, createCalls := 2 })).1 = 2 ∧
      (get { jedi := true, diagnosticNonEmpty := false, startupFails := fun _ => none }
        "gone-" (onWorkspaceFoldersChanged ["kept-"]
          { initialCState with
            cache := [("gone-", 0), ("kept-", 1)],
            promises := [(0, PResult.ok 0), (1, PResult.ok 1)],
            nextServer := 2, nextPromise := 2, createCalls := 2 })).2.createCalls = 3) :=
  ⟨⟨by decide, by decide, by decide, by decide, by decide⟩,
    claimC9 ["kept-"]
      { initialCState with
        cache := [("gone-", 0), ("kept-", 1)],
        promises := [(0, PResult.ok 0), (1, PResult.ok 1)],
        nextServer := 2, nextPromise := 2, createCalls := 2 }
      "gone-" "kept-" 0 1 0
      { jedi := true, diagnosticNonEmpty := false, startupFails := fun _ => none }
      (by decide) (by decide) (by decide) (by decide) (by decide)⟩

/-- Witness for claim C10 at a concrete input: a Jedi construction rejects
with error 3; the rejected promise 0 stays cached and a repeat `get`
returns it unchanged; after evicting the key via a folders change, the
next `get` runs a fresh construction. -/
theorem claimC10_witness :
    (assocFind initialCState.cache "ws-" = none ∧
      ({ jedi := true, diagnosticNonEmpty := false,
         startupFails := fun _ => some 3 } : CacheEnv).startupFails
          initialCState.nextServer = some 3 ∧
      ("ws-" ∉ ([] : List String))) ∧
    ((get { jedi := true, diagnosticNonEmpty := false, startupFails := fun _ => some 3 }
        "ws-" initialCState).2.promises = [(0, PResult.err 3)] ∧
      get { jedi := true, diagnosticNonEmpty := false, startupFails := fun _ => none }
        "ws-" (get { jedi := true, diagnosticNonEmpty := false,
                     startupFails := fun _ => some 3 } "ws-" initialCState).2
        = ((get { jedi := true, diagnosticNonEmpty := false,
                  startupFails := fun _ => some 3 } "ws-" initialCState).1,
           (get { jedi := true, diagnosticNonEmpty := false,
                  startupFails := fun _ => some 3 } "ws-" initialCState).2) ∧
      assocFind (onWorkspaceFoldersChanged []
        (get { jedi := true, diagnosticNonEmpty := false,
               startupFails := fun _ => some 3 } "ws-" initialCState).2).cache "ws-" = none ∧
      (get { jedi := true, diagnosticNonEmpty := false, startupFails := fun _ => none }
        "ws-" (onWorkspaceFoldersChanged []
          (get { jedi := true, diagnosticNonEmpty := false,
                 startupFails := fun _ => some 3 } "ws-" initialCState).2)).2.createCalls
        = 2) :=
  ⟨⟨by decide, by decide, by decide⟩,
    claimC10 { jedi := true, diagnosticNonEmpty := false, startupFails := fun _ => some 3 }
      { jedi := true, diagnosticNonEmpty := false, startupFails := fun _ => none }
      { jedi := true, diagnosticNonEmpty := false, startupFails := fun _ => none }
      "ws-" initialCState 3 [] (by decide) (by decide) (by decide) (by decide) (by decide)⟩

end LanguageServerCache
